import Mathlib

/-!
# hello.c: a character-device kernel module

A shallow embedding of `src/hello.c`.  The module's handlers are functions on an
explicit `Kernel` state that holds the module's static variables, the resources
the host currently holds for the module, and the ordered trace of every host
call the module made.  What a host call answers (the value `register_chrdev`
returns, the pointers `class_create` and `device_create` return, whether `kzalloc`
has memory, how many bytes a boundary copy could not copy) is an argument of the
handler.  A handler that faults in the kernel returns nothing.
-/

set_option linter.unusedVariables false

namespace Hello

/-! ## Constants and machine integers -/

/-- Module name, the MODULE_NAME define of hello.c. -/
def MODULE_NAME : String := "Hello World"

/-- Device name, the DEVICE_NAME define of hello.c. -/
def DEVICE_NAME : String := "hello"

/-- Errno of a bad address (EFAULT in the host's errno-base.h). -/
def EFAULT : Int := 14

/-- Largest errno an error pointer carries (MAX_ERRNO in the host's err.h). -/
def MAX_ERRNO : Nat := 4095

/-- Width of the minor number inside a dev_t (MINORBITS in the host's kdev_t.h). -/
def MINORBITS : Nat := 20

/-- Largest value of the signed 64-bit type ssize_t. -/
def SSIZE_MAX : Nat := 2 ^ 63 - 1

/-- Conversion of a 64-bit unsigned value (size_t, a pointer) to the signed 64-bit
type (long, ssize_t). -/
def to_long (x : Nat) : Int :=
  if x % 2 ^ 64 < 2 ^ 63 then ((x % 2 ^ 64 : Nat) : Int) else ((x % 2 ^ 64 : Nat) : Int) - 2 ^ 64

/-- Conversion of a long to the 32-bit int the module entry point returns. -/
def to_int (x : Int) : Int := (x + 2 ^ 31) % 2 ^ 32 - 2 ^ 31

/-- Bit pattern of an int as an unsigned 32-bit value. -/
def to_u32 (x : Int) : Nat := (x % 2 ^ 32).toNat

/-- The host's IS_ERR: the pointer lies in the last MAX_ERRNO addresses. -/
def IS_ERR (ptr : Nat) : Bool := decide (2 ^ 64 - MAX_ERRNO ≤ ptr % 2 ^ 64)

/-- The host's PTR_ERR: the pointer read as a long. -/
def PTR_ERR (ptr : Nat) : Int := to_long ptr

/-- The host's MKDEV: `(ma << MINORBITS) | mi`, stored in a 32-bit dev_t. -/
def MKDEV (ma mi : Int) : Nat := ((to_u32 ma <<< MINORBITS) ||| to_u32 mi) % 2 ^ 32

/-- Bytes of a C char array initialised from a string literal: the characters and
the terminating zero byte. -/
def c_array (s : String) : List Nat := s.toList.map Char.toNat ++ [0]

/-! ## Host calls and the kernel state -/

/-- Log level of a printk call. -/
inductive Level
  | KERN_INFO
  | KERN_ALERT
  deriving DecidableEq, Repr

/-- One variadic argument of a printk call. -/
inductive Arg
  | str (s : String)
  | cstr (bytes : List Nat)
  | num (i : Int)
  deriving DecidableEq, Repr

/-- One action of the module on its host, in program order. -/
inductive Event
  | printk (level : Level) (fmt : String) (args : List Arg)
  | register_chrdev (major : Int) (name : String)
  | unregister_chrdev (major : Int) (name : String)
  | class_create (name : String)
  | set_dev_uevent (cls : Nat)
  | class_destroy (cls : Nat)
  | device_create (cls : Nat) (devt : Nat) (name : String)
  | device_destroy (cls : Nat) (devt : Nat)
  | kzalloc (size : Nat)
  | copy_from_user (n : Nat)
  | copy_to_user (n : Nat)
  | store (index : Nat) (value : Nat)
  | kfree
  deriving DecidableEq, Repr

/-- The module's static variables, the resources the host holds for it, and the
trace of its host calls. -/
structure Kernel where
  major : Int
  minor : Int
  device_class : Nat
  device_number : Nat
  chrdevs : List (Int × String)
  classes : List Nat
  devices : List (Nat × Nat)
  trace : List Event
  deriving DecidableEq, Repr

/-- The state before the module is loaded: zeroed statics, nothing held. -/
def unloaded : Kernel :=
  { major := 0, minor := 0, device_class := 0, device_number := 0,
    chrdevs := [], classes := [], devices := [], trace := [] }

/-- Append one action to the trace. -/
def Kernel.emit (k : Kernel) (e : Event) : Kernel := { k with trace := k.trace ++ [e] }

/-- Host call register_chrdev answering `ret`: a negative errno registers nothing;
otherwise the device is registered, under the answered major when major 0 was
requested. -/
def register_chrdev (k : Kernel) (major : Int) (name : String) (ret : Int) : Kernel :=
  let k := k.emit (Event.register_chrdev major name)
  if ret < 0 then k
  else { k with chrdevs := ((if major = 0 then ret else major), name) :: k.chrdevs }

/-- Host call unregister_chrdev. -/
def unregister_chrdev (k : Kernel) (major : Int) (name : String) : Kernel :=
  let k := k.emit (Event.unregister_chrdev major name)
  { k with chrdevs := k.chrdevs.erase (major, name) }

/-- Host call class_create answering pointer `ret`: an error pointer creates nothing. -/
def class_create (k : Kernel) (name : String) (ret : Nat) : Kernel :=
  let k := k.emit (Event.class_create name)
  if IS_ERR ret then k else { k with classes := ret :: k.classes }

/-- Host call class_destroy. -/
def class_destroy (k : Kernel) (cls : Nat) : Kernel :=
  let k := k.emit (Event.class_destroy cls)
  { k with classes := k.classes.erase cls }

/-- Host call device_create answering pointer `ret`: an error pointer creates nothing. -/
def device_create (k : Kernel) (cls devt : Nat) (name : String) (ret : Nat) : Kernel :=
  let k := k.emit (Event.device_create cls devt name)
  if IS_ERR ret then k else { k with devices := (cls, devt) :: k.devices }

/-- Host call device_destroy. -/
def device_destroy (k : Kernel) (cls devt : Nat) : Kernel :=
  let k := k.emit (Event.device_destroy cls devt)
  { k with devices := k.devices.erase (cls, devt) }

/-- Host call printk. -/
def printk (k : Kernel) (level : Level) (fmt : String) (args : List Arg) : Kernel :=
  k.emit (Event.printk level fmt args)

/-- The printk calls of a trace, in order. -/
def log_lines (t : List Event) : List Event :=
  t.filter (fun e => match e with
    | Event.printk _ _ _ => true
    | _ => false)

/-! ## Memory of the write handler -/

/-- Bytes addressed relative to a pointer. -/
abbrev Memory := Nat → Nat

/-- What the host's kzalloc answers (slab.h): NULL when the allocation fails,
ZERO_SIZE_PTR for a request of 0 bytes, or the memory of a block.  Neither NULL nor
ZERO_SIZE_PTR can be read or written: an access through them faults in the kernel. -/
inductive Pointer
  | null
  | zero_size
  | block (mem : Memory)

/-- A fresh block of `size` zero bytes; the bytes from offset `size` on are whatever
lies next to the allocation. -/
def zeroed (size : Nat) (adjacent : Memory) : Memory :=
  fun i => if i < size then 0 else adjacent (i - size)

/-- Host call kzalloc: a request of 0 bytes answers ZERO_SIZE_PTR; otherwise a zeroed
block when the host has memory (`available`), NULL when it has not. -/
def kzalloc (size : Nat) (available : Bool) (adjacent : Memory) : Pointer :=
  if size = 0 then Pointer.zero_size
  else if available then Pointer.block (zeroed size adjacent)
  else Pointer.null

/-- Memory after a copy of `n` bytes that left `uncopied` of them: the first
`n - uncopied` bytes arrive, the rest of the `n` bytes are zeroed. -/
def copied (dst : Memory) (src : List Nat) (n uncopied : Nat) : Memory :=
  fun i => if i < n - uncopied then src.getD i 0 else if i < n then 0 else dst i

/-- Host call copy_from_user answering `uncopied`.  A copy of 0 bytes writes nothing.
Otherwise each of the `n` destination bytes is written, by the copy or by the zero
fill of the uncopied tail, so a destination that is not a block faults (`none`). -/
def copy_from_user (dst : Pointer) (src : List Nat) (n uncopied : Nat) : Option Pointer :=
  if n = 0 then some dst
  else match dst with
    | Pointer.block mem => some (Pointer.block (copied mem src n uncopied))
    | _ => none

/-- Host call copy_to_user answering `uncopied`: the bytes that reach the caller. -/
def copy_to_user (src : List Nat) (n uncopied : Nat) : List Nat :=
  (src.take n).take (n - uncopied)

/-- Memory after the byte store `mem[index] = value`. -/
def stored (mem : Memory) (index value : Nat) : Memory :=
  fun i => if i = index then value else mem i

/-- Single byte store `dst[index] = value`: through NULL or ZERO_SIZE_PTR it faults
(`none`); into a block it lands at that offset, inside the allocation or next to it. -/
def store (dst : Pointer) (index value : Nat) : Option Memory :=
  match dst with
  | Pointer.block mem => some (stored mem index value)
  | _ => none

/-- The C string at offset `i`: the bytes before the first zero byte, scanning at
most `fuel` bytes. -/
def c_string (mem : Memory) : Nat → Nat → List Nat
  | 0, _ => []
  | fuel + 1, i => if mem i = 0 then [] else mem i :: c_string mem fuel (i + 1)

/-! ## The handlers -/

/-- The array `char message[]` of device_read. -/
def message : List Nat := c_array "Hello World!\n"

/-- What a read call leaves behind. -/
structure ReadResult where
  ret : Int
  delivered : List Nat
  offset : Int
  kernel : Kernel
  deriving DecidableEq, Repr

/-- The read handler.  `delivered` are the bytes written to the caller's buffer from
its first byte on; `uncopied` is what copy_to_user answers. -/
def device_read (k : Kernel) (length : Nat) (offset : Int) (uncopied : Nat) : ReadResult :=
  let k := k.emit (Event.copy_to_user message.length)
  let delivered := copy_to_user message message.length uncopied
  if uncopied ≠ 0 then
    { ret := -EFAULT, delivered := delivered, offset := offset, kernel := k }
  else
    { ret := to_long message.length, delivered := delivered, offset := offset, kernel := k }

/-- What a write call leaves behind.  `ret` is `none` when the handler faulted in the
kernel and never returned; `kernel` is then the state at the fault. -/
structure WriteResult where
  ret : Option Int
  offset : Int
  kernel : Kernel
  deriving DecidableEq, Repr

/-- The write handler.  `buffer` are the caller's bytes, `available` tells whether the
host can allocate, `uncopied` is what copy_from_user answers, `adjacent` is the
memory next to the allocation.  The pointer kzalloc answers is used unchecked, as in
the source.  The terminator stored at index `length` ends the string printk reads,
so the scan of the string is given `length + 1` bytes. -/
def device_write (k : Kernel) (buffer : List Nat) (length : Nat) (offset : Int)
    (available : Bool) (uncopied : Nat) (adjacent : Memory) : WriteResult :=
  let k := k.emit (Event.kzalloc length)
  let input := kzalloc length available adjacent
  let k := k.emit (Event.copy_from_user length)
  match copy_from_user input buffer length uncopied with
  | none => { ret := none, offset := offset, kernel := k }
  | some input =>
    if uncopied ≠ 0 then
      { ret := some (-EFAULT), offset := offset, kernel := k }
    else
      let k := k.emit (Event.store length 0)
      match store input length 0 with
      | none => { ret := none, offset := offset, kernel := k }
      | some mem =>
        let k := printk k Level.KERN_INFO "%s: Input (%ld): %s\n"
          [Arg.str MODULE_NAME, Arg.num (to_long length),
           Arg.cstr (c_string mem (length + 1) 0)]
        let k := k.emit Event.kfree
        { ret := some (to_long length), offset := offset, kernel := k }

/-- The open handler. -/
def device_open : Int := 0

/-- The release handler. -/
def device_release : Int := 0

/-- The uevent callback; `result` is what add_uevent_var answers. -/
def dev_uevent (result : Int) : Int := if result < 0 then result else 0

/-- The module entry point (`initialize` in hello.c).  `reg` is what register_chrdev
answers, `cls` the pointer class_create answers, `dev` the pointer device_create
answers. -/
def init_module (k : Kernel) (reg : Int) (cls dev : Nat) : Int × Kernel :=
  let k := printk k Level.KERN_INFO "Loading %s module...\n" [Arg.str MODULE_NAME]
  let k := register_chrdev k 0 DEVICE_NAME reg
  let k := { k with major := reg }
  if k.major < 0 then
    let k := printk k Level.KERN_ALERT
      "Failed to register character device, %s, for module, %s. Error code is %d\n"
      [Arg.str DEVICE_NAME, Arg.str MODULE_NAME, Arg.num k.major]
    (k.major, k)
  else
    let k := { k with minor := 0 }
    let k := { k with device_number := MKDEV k.major k.minor }
    let k := class_create k DEVICE_NAME cls
    let k := { k with device_class := cls }
    if IS_ERR k.device_class then
      let k := printk k Level.KERN_ALERT
        "Failed to create class pointer, %s, for module, %s. Error code is %ld\n"
        [Arg.str DEVICE_NAME, Arg.str MODULE_NAME, Arg.num (PTR_ERR k.device_class)]
      let k := unregister_chrdev k k.major DEVICE_NAME
      (to_int (PTR_ERR k.device_class), k)
    else
      let k := k.emit (Event.set_dev_uevent k.device_class)
      let k := device_create k k.device_class k.device_number DEVICE_NAME dev
      if IS_ERR dev then
        let k := class_destroy k k.device_class
        let k := unregister_chrdev k k.major DEVICE_NAME
        (to_int (PTR_ERR dev), k)
      else
        (0, k)

/-- The module exit point. -/
def cleanup (k : Kernel) : Kernel :=
  let k := printk k Level.KERN_INFO "Unloading %s module...\n" [Arg.str MODULE_NAME]
  let k := device_destroy k k.device_class k.device_number
  let k := class_destroy k k.device_class
  unregister_chrdev k k.major DEVICE_NAME

/-- A loaded module: major 240, class and device at two kernel addresses. -/
def loaded : Kernel := (init_module unloaded 240 0xffff888003c4a000 0xffff888003c4b800).2

/-- Memory next to an allocation, every byte 0xAA. -/
def poison : Memory := fun _ => 170

/-- The characters of the greeting, without a terminator. -/
def greeting : List Nat := "Hello World!\n".toList.map Char.toNat

/-! ## Arithmetic of the machine integers -/

theorem to_long_of_le (n : Nat) (h : n ≤ SSIZE_MAX) : to_long n = (n : Int) := by
  unfold SSIZE_MAX at h
  unfold to_long
  have h1 : n % 2 ^ 64 = n := Nat.mod_eq_of_lt (by omega)
  rw [h1]
  rw [if_pos (by omega)]

theorem IS_ERR_iff (p : Nat) : IS_ERR p = true ↔ 2 ^ 64 - 4095 ≤ p % 2 ^ 64 := by
  simp [IS_ERR, MAX_ERRNO]

theorem PTR_ERR_range (p : Nat) (h : IS_ERR p = true) : -4095 ≤ PTR_ERR p ∧ PTR_ERR p ≤ -1 := by
  rw [IS_ERR_iff] at h
  unfold PTR_ERR to_long
  have hlt : p % 2 ^ 64 < 2 ^ 64 := Nat.mod_lt _ (by norm_num)
  have h2 : ¬ p % 2 ^ 64 < 2 ^ 63 := by omega
  rw [if_neg h2]
  omega

theorem to_int_of_small (x : Int) (h1 : -4095 ≤ x) (h2 : x ≤ -1) : to_int x = x := by
  unfold to_int
  omega

theorem to_int_PTR_ERR (p : Nat) (h : IS_ERR p = true) : to_int (PTR_ERR p) = PTR_ERR p :=
  to_int_of_small _ (PTR_ERR_range p h).1 (PTR_ERR_range p h).2

/-! ## The string printk reads -/

theorem c_string_eq (mem : Memory) (bs : List Nat) :
    ∀ (i fuel : Nat), (∀ j, j < bs.length → mem (i + j) = bs.getD j 0) →
      mem (i + bs.length) = 0 → bs.length < fuel →
      c_string mem fuel i = bs.takeWhile (fun b => decide (b ≠ 0)) := by
  induction bs with
  | nil =>
    intro i fuel _ h0 hf
    cases fuel with
    | zero => simp at hf
    | succ f => simpa [c_string] using h0
  | cons b rest ih =>
    intro i fuel hb h0 hf
    cases fuel with
    | zero => simp at hf
    | succ f =>
      have hb0 : mem i = b := by simpa using hb 0 (by simp)
      by_cases hz : b = 0
      · simp [c_string, hb0, hz]
      · have hrec := ih (i + 1) f
          (fun j hj => by
            have := hb (j + 1) (by simpa using hj)
            simpa [Nat.add_assoc, Nat.add_comm 1 j] using this)
          (by simpa [Nat.add_assoc, Nat.add_comm 1] using h0)
          (by simpa using hf)
        simp [c_string, hb0, hz, hrec]

/-- A scan that meets a zero byte within its fuel reads the same string under any
larger fuel: the terminator, not the fuel, ends it. -/
theorem c_string_fuel (mem : Memory) :
    ∀ (n i fuel : Nat), mem (i + n) = 0 → n < fuel →
      c_string mem fuel i = c_string mem (n + 1) i := by
  intro n
  induction n with
  | zero =>
    intro i fuel h0 hf
    cases fuel with
    | zero => simp at hf
    | succ f => simp [c_string, show mem i = 0 by simpa using h0]
  | succ m ih =>
    intro i fuel h0 hf
    cases fuel with
    | zero => simp at hf
    | succ f =>
      have hrec := ih (i + 1) f (by simpa [Nat.add_assoc, Nat.add_comm 1 m] using h0)
        (by omega)
      by_cases hz : mem i = 0
      · simp [c_string, hz]
      · rw [c_string, c_string, hrec]

/-- The string of the write handler's buffer does not depend on the fuel beyond
`length + 1`: the terminator stored at index `length` ends the scan. -/
theorem device_write_string_fuel (buffer : List Nat) (length uncopied fuel : Nat)
    (adjacent : Memory) (hf : length < fuel) :
    c_string (stored (copied (zeroed length adjacent) buffer length uncopied) length 0)
        fuel 0
      = c_string (stored (copied (zeroed length adjacent) buffer length uncopied)
          length 0) (length + 1) 0 :=
  c_string_fuel _ length 0 fuel (by simp [stored]) hf

/-- The memory the write handler hands to printk after a complete copy. -/
theorem input_bytes (buffer : List Nat) (length : Nat) (adjacent : Memory) :
    (∀ j, j < (buffer.take length).length →
      stored (copied (zeroed length adjacent) buffer length 0) length 0 (0 + j)
        = (buffer.take length).getD j 0) := by
  intro j hj
  have hj2 : j < length := by
    have := List.length_take_le length buffer
    omega
  have hj3 : j < buffer.length := by
    simp at hj; omega
  simp [stored, copied, Nat.ne_of_lt hj2, hj2, List.getD_eq_getElem?_getD,
    List.getElem?_take, hj3]

/-- The write handler on a length of at least 1 with memory available: the fault
return when the copy leaves bytes, else the log line, the free and the length. -/
theorem device_write_block (k : Kernel) (buffer : List Nat) (length : Nat) (offset : Int)
    (uncopied : Nat) (adjacent : Memory) (hpos : 1 ≤ length) :
    device_write k buffer length offset true uncopied adjacent =
      if uncopied ≠ 0 then
        { ret := some (-EFAULT), offset := offset,
          kernel := { k with trace := k.trace ++
            [Event.kzalloc length, Event.copy_from_user length] } }
      else
        { ret := some (to_long length), offset := offset,
          kernel := { k with trace := k.trace ++
            [Event.kzalloc length, Event.copy_from_user length, Event.store length 0,
             Event.printk Level.KERN_INFO "%s: Input (%ld): %s\n"
               [Arg.str MODULE_NAME, Arg.num (to_long length),
                Arg.cstr (c_string
                  (stored (copied (zeroed length adjacent) buffer length uncopied) length 0)
                  (length + 1) 0)],
             Event.kfree] } } := by
  have hne : length ≠ 0 := by omega
  by_cases hu : uncopied = 0
  · simp [device_write, kzalloc, copy_from_user, store, printk, Kernel.emit, hne, hu]
  · simp [device_write, kzalloc, copy_from_user, store, printk, Kernel.emit, hne, hu]

/-! ## The read handler -/

/-- C1: for every requested length and offset, a read whose copy to the caller
succeeds delivers the whole 14-byte array `message` from its first byte and returns
14, the number of bytes copied; bytes and return value do not depend on the length,
the offset or the kernel state, the offset is left as it was, and a second read
issued right after the first gives the same bytes and return value. -/
theorem device_read_constant (k : Kernel) (length : Nat) (offset : Int) :
    (device_read k length offset 0).delivered = message ∧
    (device_read k length offset 0).delivered
      = [72, 101, 108, 108, 111, 32, 87, 111, 114, 108, 100, 33, 10, 0] ∧
    (device_read k length offset 0).ret = 14 ∧
    ((device_read k length offset 0).delivered.length : Int)
      = (device_read k length offset 0).ret ∧
    (device_read k length offset 0).kernel.trace = k.trace ++ [Event.copy_to_user 14] ∧
    (device_read k length offset 0).offset = offset ∧
    (∀ (k2 : Kernel) (length2 : Nat) (offset2 : Int),
      (device_read k2 length2 offset2 0).delivered = (device_read k length offset 0).delivered ∧
      (device_read k2 length2 offset2 0).ret = (device_read k length offset 0).ret) ∧
    (device_read (device_read k length offset 0).kernel length
        (device_read k length offset 0).offset 0).delivered
      = (device_read k length offset 0).delivered ∧
    (device_read (device_read k length offset 0).kernel length
        (device_read k length offset 0).offset 0).ret
      = (device_read k length offset 0).ret := by
  have hm : message = [72, 101, 108, 108, 111, 32, 87, 111, 114, 108, 100, 33, 10, 0] := by
    decide
  have hd : ∀ (k2 : Kernel) (length2 : Nat) (offset2 : Int),
      (device_read k2 length2 offset2 0).delivered = message := by
    intro k2 length2 offset2
    simp [device_read, copy_to_user, hm]
  have hr : ∀ (k2 : Kernel) (length2 : Nat) (offset2 : Int),
      (device_read k2 length2 offset2 0).ret = 14 := by
    intro k2 length2 offset2
    simp [device_read, hm, to_long]
  refine ⟨hd _ _ _, ?_, hr _ _ _, ?_, ?_, ?_, ?_, ?_, ?_⟩
  · rw [hd, hm]
  · rw [hd, hr, hm]; rfl
  · simp [device_read, Kernel.emit, hm]
  · simp [device_read]
  · intro k2 length2 offset2
    exact ⟨by rw [hd, hd], by rw [hr, hr]⟩
  · rw [hd, hd]
  · rw [hr, hr]

/-- C2, as stated, fails: after a successful read of a loaded module the delivered
bytes are not the 13 characters of the greeting (a zero byte follows them), and the
value returned is 14, not the 13 bytes of that text. -/
theorem device_read_not_bare_text :
    greeting = [72, 101, 108, 108, 111, 32, 87, 111, 114, 108, 100, 33, 10] ∧
    (device_read loaded 4096 0 0).delivered ≠ greeting ∧
    (device_read loaded 4096 0 0).ret ≠ (greeting.length : Int) ∧
    (device_read loaded 4096 0 0).ret = 14 := by
  decide

/-- C2, amended: for every successful read the delivered bytes are the text
"Hello World!", one line terminator and one terminating zero byte, 14 bytes in all,
and the value returned is 14, the byte count of that payload with its zero byte. -/
theorem device_read_text_and_terminator (k : Kernel) (length : Nat) (offset : Int) :
    (device_read k length offset 0).delivered
      = "Hello World!".toList.map Char.toNat ++ [10] ++ [0] ∧
    (device_read k length offset 0).ret
      = (("Hello World!".toList.map Char.toNat ++ [10] ++ [0]).length : Int) ∧
    (device_read k length offset 0).ret = 14 := by
  have hm : message = "Hello World!".toList.map Char.toNat ++ [10] ++ [0] := by decide
  have hl : ("Hello World!".toList.map Char.toNat ++ [10] ++ [0]).length = 14 := by decide
  have hm2 : message.length = 14 := by decide
  refine ⟨?_, ?_, ?_⟩
  · simp only [device_read, copy_to_user, hm2]
    rw [hm]
    simp
  · rw [hl]
    simp [device_read, hm2, to_long]
  · simp [device_read, hm2, to_long]

/-! ## The write handler -/

/-- C3, as stated, fails: writing the 3 bytes 'a', 0, 'b' returns 3, and the content
printk logs is the single byte 'a', not the 3 bytes the caller supplied; and a write
of declared length 0 whose copy succeeds returns nothing and logs nothing, because
the terminator store through ZERO_SIZE_PTR faults. -/
theorem device_write_embedded_zero :
    (device_write loaded [97, 0, 98] 3 0 true 0 poison).ret = some 3 ∧
    (device_write loaded [97, 0, 98] 3 0 true 0 poison).kernel.trace = loaded.trace ++
      [Event.kzalloc 3, Event.copy_from_user 3, Event.store 3 0,
       Event.printk Level.KERN_INFO "%s: Input (%ld): %s\n"
         [Arg.str "Hello World", Arg.num 3, Arg.cstr [97]],
       Event.kfree] ∧
    (device_write loaded [97, 0, 98] 3 0 true 0 poison).kernel.trace ≠ loaded.trace ++
      [Event.kzalloc 3, Event.copy_from_user 3, Event.store 3 0,
       Event.printk Level.KERN_INFO "%s: Input (%ld): %s\n"
         [Arg.str "Hello World", Arg.num 3, Arg.cstr [97, 0, 98]],
       Event.kfree] ∧
    (device_write loaded [] 0 0 true 0 poison).ret = none ∧
    (device_write loaded [] 0 0 true 0 poison).kernel.trace = loaded.trace ++
      [Event.kzalloc 0, Event.copy_from_user 0, Event.store 0 0] := by
  decide

/-- C3, amended: for every declared length L of at least 1 that ssize_t can hold and
every caller buffer of at least L bytes, a write whose allocation and copy from the
caller succeed returns L, and the content it logs is the caller's first L bytes up
to, not including, the first zero byte among them: all L bytes when none of them is
zero. -/
theorem device_write_logs_c_string (k : Kernel) (buffer : List Nat) (length : Nat)
    (offset : Int) (adjacent : Memory)
    (hpos : 1 ≤ length) (hbuf : length ≤ buffer.length) (hlen : length ≤ SSIZE_MAX) :
    (device_write k buffer length offset true 0 adjacent).ret = some (length : Int) ∧
    (device_write k buffer length offset true 0 adjacent).kernel.trace = k.trace ++
      [Event.kzalloc length, Event.copy_from_user length, Event.store length 0,
       Event.printk Level.KERN_INFO "%s: Input (%ld): %s\n"
         [Arg.str MODULE_NAME, Arg.num (length : Int),
          Arg.cstr ((buffer.take length).takeWhile (fun b => decide (b ≠ 0)))],
       Event.kfree] ∧
    (0 ∉ buffer.take length →
      (buffer.take length).takeWhile (fun b => decide (b ≠ 0)) = buffer.take length) := by
  have hL : (buffer.take length).length = length := by simp [hbuf]
  have hs := c_string_eq
    (stored (copied (zeroed length adjacent) buffer length 0) length 0)
    (buffer.take length) 0 (length + 1) (input_bytes buffer length adjacent)
    (by simp [hL, stored]) (by omega)
  rw [device_write_block k buffer length offset 0 adjacent hpos]
  refine ⟨?_, ?_, ?_⟩
  · simp [to_long_of_le length hlen]
  · simp [to_long_of_le length hlen, hs]
  · intro h0
    rw [List.takeWhile_eq_self_iff]
    intro b hb
    have : b ≠ 0 := fun hb0 => h0 (hb0 ▸ hb)
    simpa using this

/-- Witness of C3 amended: the 4 bytes "test" return 4 and are logged as "test". -/
theorem device_write_logs_c_string_witness :
    1 ≤ 4 ∧ 4 ≤ [116, 101, 115, 116].length ∧ 4 ≤ SSIZE_MAX ∧
    (device_write loaded [116, 101, 115, 116] 4 0 true 0 poison).ret = some 4 ∧
    (device_write loaded [116, 101, 115, 116] 4 0 true 0 poison).kernel.trace
      = loaded.trace ++
      [Event.kzalloc 4, Event.copy_from_user 4, Event.store 4 0,
       Event.printk Level.KERN_INFO "%s: Input (%ld): %s\n"
         [Arg.str "Hello World", Arg.num 4, Arg.cstr [116, 101, 115, 116]],
       Event.kfree] :=
  ⟨by decide, by decide, by decide,
   (device_write_logs_c_string loaded [116, 101, 115, 116] 4 0 poison
      (by decide) (by decide) (by decide)).1,
   (device_write_logs_c_string loaded [116, 101, 115, 116] 4 0 poison
      (by decide) (by decide) (by decide)).2.1⟩

/-- C6 fails in the code: when the copy from the caller faults on a 4-byte write,
the handler returns -EFAULT having allocated the buffer and never freed it. -/
theorem device_write_fault_leaks :
    (device_write loaded [116, 101, 115, 116] 4 0 true 4 poison).ret = some (-14) ∧
    (device_write loaded [116, 101, 115, 116] 4 0 true 4 poison).kernel.trace
      = loaded.trace ++ [Event.kzalloc 4, Event.copy_from_user 4] ∧
    ((device_write loaded [116, 101, 115, 116] 4 0 true 4 poison).kernel.trace.drop
      loaded.trace.length).count (Event.kzalloc 4) = 1 ∧
    ((device_write loaded [116, 101, 115, 116] 4 0 true 4 poison).kernel.trace.drop
      loaded.trace.length).count Event.kfree = 0 ∧
    ((device_write loaded [116, 101, 115, 116] 4 0 true 0 poison).kernel.trace.drop
      loaded.trace.length).count Event.kfree = 1 := by
  decide

/-- C10 fails in the code: a 4-byte write allocates 4 bytes and then stores the
terminator at index 4, which is not below the size of the allocation. -/
theorem device_write_terminator_out_of_bounds :
    (device_write loaded [116, 101, 115, 116] 4 0 true 0 poison).kernel.trace.drop
      loaded.trace.length
      = [Event.kzalloc 4, Event.copy_from_user 4, Event.store 4 0,
         Event.printk Level.KERN_INFO "%s: Input (%ld): %s\n"
           [Arg.str "Hello World", Arg.num 4, Arg.cstr [116, 101, 115, 116]],
         Event.kfree] ∧
    ¬ (4 < 4) := by
  decide

/-- The terminator store of every write whose copy succeeds is at the index equal to
the size requested from kzalloc. -/
theorem device_write_store_index (k : Kernel) (buffer : List Nat) (length : Nat)
    (offset : Int) (adjacent : Memory) :
    Event.kzalloc length
      ∈ (device_write k buffer length offset true 0 adjacent).kernel.trace ∧
    Event.store length 0
      ∈ (device_write k buffer length offset true 0 adjacent).kernel.trace := by
  by_cases h0 : length = 0
  · subst h0
    simp [device_write, kzalloc, copy_from_user, store, Kernel.emit]
  · rw [device_write_block k buffer length offset 0 adjacent (by omega)]
    simp

/-- C7 fails in the code: a write of declared length 0 whose copy reports success
does not return a byte count: kzalloc answers ZERO_SIZE_PTR and the terminator store
at index 0 faults, so the handler never returns; likewise a 4-byte write whose
allocation fails faults in the unchecked copy.  The read and a 4-byte write with a
successful copy do return their byte counts, and both return -EFAULT on a failed
copy. -/
theorem device_write_zero_length_faults :
    (device_write loaded [] 0 0 true 0 poison).ret = none ∧
    (device_write loaded [] 0 0 true 0 poison).kernel.trace = loaded.trace ++
      [Event.kzalloc 0, Event.copy_from_user 0, Event.store 0 0] ∧
    (device_write loaded [116, 101, 115, 116] 4 0 false 0 poison).ret = none ∧
    (device_write loaded [116, 101, 115, 116] 4 0 false 0 poison).kernel.trace
      = loaded.trace ++ [Event.kzalloc 4, Event.copy_from_user 4] ∧
    (device_write loaded [116, 101, 115, 116] 4 0 true 0 poison).ret = some 4 ∧
    (device_write loaded [116, 101, 115, 116] 4 0 true 4 poison).ret = some (-EFAULT) ∧
    (device_read loaded 4096 0 0).ret = 14 ∧
    (device_read loaded 4096 0 14).ret = -EFAULT := by
  decide

/-- Outside the faulting cases: the read handler returns -EFAULT exactly when its copy
leaves bytes and 14 otherwise; the write handler, for a length of at least 1 that
ssize_t can hold and with memory available, returns -EFAULT exactly when its copy
leaves bytes and the length otherwise; on the fault path the copy is the last
action and no log line is added; the statics and held resources never change. -/
theorem handlers_fault_iff (k : Kernel) (buffer : List Nat) (rlength wlength : Nat)
    (offset : Int) (uncopied : Nat) (adjacent : Memory)
    (hpos : 1 ≤ wlength) (hlen : wlength ≤ SSIZE_MAX) :
    ((device_read k rlength offset uncopied).ret = -EFAULT ↔ uncopied ≠ 0) ∧
    ((device_write k buffer wlength offset true uncopied adjacent).ret = some (-EFAULT)
      ↔ uncopied ≠ 0) ∧
    (uncopied = 0 → (device_read k rlength offset uncopied).ret = 14 ∧
      (device_write k buffer wlength offset true uncopied adjacent).ret
        = some (wlength : Int)) ∧
    (uncopied ≠ 0 →
      (device_read k rlength offset uncopied).kernel.trace
        = k.trace ++ [Event.copy_to_user 14] ∧
      (device_write k buffer wlength offset true uncopied adjacent).kernel.trace
        = k.trace ++ [Event.kzalloc wlength, Event.copy_from_user wlength] ∧
      log_lines (device_read k rlength offset uncopied).kernel.trace = log_lines k.trace ∧
      log_lines (device_write k buffer wlength offset true uncopied adjacent).kernel.trace
        = log_lines k.trace) ∧
    { (device_read k rlength offset uncopied).kernel with trace := k.trace } = k ∧
    { (device_write k buffer wlength offset true uncopied adjacent).kernel with
        trace := k.trace } = k := by
  have hm2 : message.length = 14 := by decide
  have hw := to_long_of_le wlength hlen
  rw [device_write_block k buffer wlength offset uncopied adjacent hpos]
  by_cases hu : uncopied = 0
  · subst hu
    have h14 : to_long message.length = 14 := by decide
    simp [device_read, Kernel.emit, h14, hw, EFAULT]
  · simp [device_read, Kernel.emit, hm2, hu, log_lines]

/-! ## Load and unload -/

/-- The three outcomes of the entry point that report a failure, and the one that
reports success, as the pair of return value and final state. -/
theorem init_module_cases (k : Kernel) (reg : Int) (cls dev : Nat) :
    (reg < 0 → init_module k reg cls dev = (reg,
      { k with
        major := reg
        trace := k.trace ++
          [Event.printk Level.KERN_INFO "Loading %s module...\n" [Arg.str MODULE_NAME],
           Event.register_chrdev 0 DEVICE_NAME,
           Event.printk Level.KERN_ALERT
             "Failed to register character device, %s, for module, %s. Error code is %d\n"
             [Arg.str DEVICE_NAME, Arg.str MODULE_NAME, Arg.num reg]] })) ∧
    (0 ≤ reg → IS_ERR cls = true → init_module k reg cls dev = (PTR_ERR cls,
      { k with
        major := reg
        minor := 0
        device_number := MKDEV reg 0
        device_class := cls
        trace := k.trace ++
          [Event.printk Level.KERN_INFO "Loading %s module...\n" [Arg.str MODULE_NAME],
           Event.register_chrdev 0 DEVICE_NAME,
           Event.class_create DEVICE_NAME,
           Event.printk Level.KERN_ALERT
             "Failed to create class pointer, %s, for module, %s. Error code is %ld\n"
             [Arg.str DEVICE_NAME, Arg.str MODULE_NAME, Arg.num (PTR_ERR cls)],
           Event.unregister_chrdev reg DEVICE_NAME] })) ∧
    (0 ≤ reg → IS_ERR cls = false → IS_ERR dev = true →
      init_module k reg cls dev = (PTR_ERR dev,
      { k with
        major := reg
        minor := 0
        device_number := MKDEV reg 0
        device_class := cls
        trace := k.trace ++
          [Event.printk Level.KERN_INFO "Loading %s module...\n" [Arg.str MODULE_NAME],
           Event.register_chrdev 0 DEVICE_NAME,
           Event.class_create DEVICE_NAME,
           Event.set_dev_uevent cls,
           Event.device_create cls (MKDEV reg 0) DEVICE_NAME,
           Event.class_destroy cls,
           Event.unregister_chrdev reg DEVICE_NAME] })) ∧
    (0 ≤ reg → IS_ERR cls = false → IS_ERR dev = false →
      init_module k reg cls dev = (0,
      { k with
        major := reg
        minor := 0
        device_number := MKDEV reg 0
        device_class := cls
        chrdevs := (reg, DEVICE_NAME) :: k.chrdevs
        classes := cls :: k.classes
        devices := (cls, MKDEV reg 0) :: k.devices
        trace := k.trace ++
          [Event.printk Level.KERN_INFO "Loading %s module...\n" [Arg.str MODULE_NAME],
           Event.register_chrdev 0 DEVICE_NAME,
           Event.class_create DEVICE_NAME,
           Event.set_dev_uevent cls,
           Event.device_create cls (MKDEV reg 0) DEVICE_NAME] })) := by
  refine ⟨?_, ?_, ?_, ?_⟩
  · intro h1
    simp [init_module, printk, register_chrdev, Kernel.emit, h1]
  · intro h1 h2
    have h1n : ¬ reg < 0 := by omega
    simp [init_module, printk, register_chrdev, class_create, unregister_chrdev, Kernel.emit,
      h1n, h2, to_int_PTR_ERR cls h2]
  · intro h1 h2 h3
    have h1n : ¬ reg < 0 := by omega
    simp [init_module, printk, register_chrdev, class_create, device_create, class_destroy,
      unregister_chrdev, Kernel.emit, h1n, h2, h3, to_int_PTR_ERR dev h3]
  · intro h1 h2 h3
    have h1n : ¬ reg < 0 := by omega
    simp [init_module, printk, register_chrdev, class_create, device_create, Kernel.emit,
      h1n, h2, h3]

/-- The entry point reports success exactly when all three host calls succeed. -/
theorem init_module_zero_iff (k : Kernel) (reg : Int) (cls dev : Nat) :
    (init_module k reg cls dev).1 = 0 ↔ (0 ≤ reg ∧ IS_ERR cls = false ∧ IS_ERR dev = false) := by
  obtain ⟨c1, c2, c3, c4⟩ := init_module_cases k reg cls dev
  by_cases h1 : reg < 0
  · rw [c1 h1]
    constructor
    · intro h; simp at h; omega
    · intro h; omega
  · have h1p : 0 ≤ reg := by omega
    cases h2 : IS_ERR cls with
    | true =>
      rw [c2 h1p h2]
      have := PTR_ERR_range cls h2
      constructor
      · intro h; simp at h; omega
      · intro h; simp at h
    | false =>
      cases h3 : IS_ERR dev with
      | true =>
        rw [c3 h1p h2 h3]
        have := PTR_ERR_range dev h3
        constructor
        · intro h; simp at h; omega
        · intro h; simp at h
      | false =>
        rw [c4 h1p h2 h3]
        simp [h1p]

/-- C4: for every outcome of the three host calls, a load that reports a failure
leaves the held character devices, classes and device files exactly as they were
before the attempt; a class-creation failure ends with the unregistration of the
character device, a device-file-creation failure ends with the destruction of the
class followed by that unregistration; a load that returns 0 holds all three. -/
theorem init_module_unwinds (k : Kernel) (reg : Int) (cls dev : Nat) :
    ((init_module k reg cls dev).1 ≠ 0 →
      (init_module k reg cls dev).2.chrdevs = k.chrdevs ∧
      (init_module k reg cls dev).2.classes = k.classes ∧
      (init_module k reg cls dev).2.devices = k.devices) ∧
    (0 ≤ reg → IS_ERR cls = true →
      (init_module k reg cls dev).1 ≠ 0 ∧
      (init_module k reg cls dev).2.trace.drop (k.trace.length + 1)
        = [Event.register_chrdev 0 DEVICE_NAME,
           Event.class_create DEVICE_NAME,
           Event.printk Level.KERN_ALERT
             "Failed to create class pointer, %s, for module, %s. Error code is %ld\n"
             [Arg.str DEVICE_NAME, Arg.str MODULE_NAME, Arg.num (PTR_ERR cls)],
           Event.unregister_chrdev reg DEVICE_NAME]) ∧
    (0 ≤ reg → IS_ERR cls = false → IS_ERR dev = true →
      (init_module k reg cls dev).1 ≠ 0 ∧
      (init_module k reg cls dev).2.trace.drop (k.trace.length + 1)
        = [Event.register_chrdev 0 DEVICE_NAME,
           Event.class_create DEVICE_NAME,
           Event.set_dev_uevent cls,
           Event.device_create cls (MKDEV reg 0) DEVICE_NAME,
           Event.class_destroy cls,
           Event.unregister_chrdev reg DEVICE_NAME]) ∧
    ((init_module k reg cls dev).1 = 0 →
      (init_module k reg cls dev).2.chrdevs = (reg, DEVICE_NAME) :: k.chrdevs ∧
      (init_module k reg cls dev).2.classes = cls :: k.classes ∧
      (init_module k reg cls dev).2.devices = (cls, MKDEV reg 0) :: k.devices) := by
  obtain ⟨c1, c2, c3, c4⟩ := init_module_cases k reg cls dev
  have hz := init_module_zero_iff k reg cls dev
  refine ⟨?_, ?_, ?_, ?_⟩
  · intro hne
    by_cases h1 : reg < 0
    · rw [c1 h1]; simp
    · have h1p : 0 ≤ reg := by omega
      cases h2 : IS_ERR cls with
      | true => rw [c2 h1p h2]; simp
      | false =>
        cases h3 : IS_ERR dev with
        | true => rw [c3 h1p h2 h3]; simp
        | false => exact absurd (hz.2 ⟨h1p, h2, h3⟩) hne
  · intro h1 h2
    refine ⟨fun h => ?_, ?_⟩
    · have := (hz.1 h).2.1
      simp [h2] at this
    · rw [c2 h1 h2]; simp
  · intro h1 h2 h3
    refine ⟨fun h => ?_, ?_⟩
    · have := (hz.1 h).2.2
      simp [h3] at this
    · rw [c3 h1 h2 h3]; simp
  · intro h0
    obtain ⟨h1, h2, h3⟩ := hz.1 h0
    rw [c4 h1 h2 h3]
    simp

/-- Witness of C4: device-file creation answers the error pointer of -ENOMEM after
the character device and the class were acquired. -/
theorem init_module_unwinds_witness :
    (init_module unloaded 240 0xffff888003c4a000 (2 ^ 64 - 12)).1 ≠ 0 ∧
    (init_module unloaded 240 0xffff888003c4a000 (2 ^ 64 - 12)).2.chrdevs = [] ∧
    (init_module unloaded 240 0xffff888003c4a000 (2 ^ 64 - 12)).2.classes = [] ∧
    (init_module unloaded 240 0xffff888003c4a000 (2 ^ 64 - 12)).2.devices = [] :=
  ⟨by decide,
   (init_module_unwinds unloaded 240 0xffff888003c4a000 (2 ^ 64 - 12)).1 (by decide)⟩

/-- C8: the entry point returns 0 exactly when registration, class creation and
device-file creation all succeed; otherwise it returns the error code of the first
failed step and makes no later step: a failed registration returns the negative code
after the failure log line, with no class or device-file call and no unregistration;
a failed class creation returns its error code with no device-file call. -/
theorem init_module_result (k : Kernel) (reg : Int) (cls dev : Nat) :
    ((init_module k reg cls dev).1 = 0 ↔
      (0 ≤ reg ∧ IS_ERR cls = false ∧ IS_ERR dev = false)) ∧
    (reg < 0 →
      (init_module k reg cls dev).1 = reg ∧
      (init_module k reg cls dev).2.trace = k.trace ++
        [Event.printk Level.KERN_INFO "Loading %s module...\n" [Arg.str MODULE_NAME],
         Event.register_chrdev 0 DEVICE_NAME,
         Event.printk Level.KERN_ALERT
           "Failed to register character device, %s, for module, %s. Error code is %d\n"
           [Arg.str DEVICE_NAME, Arg.str MODULE_NAME, Arg.num reg]] ∧
      (init_module k reg cls dev).2.chrdevs = k.chrdevs ∧
      (init_module k reg cls dev).2.classes = k.classes ∧
      (init_module k reg cls dev).2.devices = k.devices) ∧
    (0 ≤ reg → IS_ERR cls = true →
      (init_module k reg cls dev).1 = PTR_ERR cls ∧
      (init_module k reg cls dev).1 < 0 ∧
      (∀ c d n, Event.device_create c d n ∉ (init_module k reg cls dev).2.trace.drop
        k.trace.length)) ∧
    (0 ≤ reg → IS_ERR cls = false → IS_ERR dev = true →
      (init_module k reg cls dev).1 = PTR_ERR dev ∧
      (init_module k reg cls dev).1 < 0) := by
  obtain ⟨c1, c2, c3, _⟩ := init_module_cases k reg cls dev
  refine ⟨init_module_zero_iff k reg cls dev, ?_, ?_, ?_⟩
  · intro h1
    rw [c1 h1]
    simp
  · intro h1 h2
    rw [c2 h1 h2]
    have := PTR_ERR_range cls h2
    refine ⟨rfl, by simp; omega, ?_⟩
    intro c d n
    simp
  · intro h1 h2 h3
    rw [c3 h1 h2 h3]
    have := PTR_ERR_range dev h3
    exact ⟨rfl, by simp; omega⟩

/-- Witness of C8: registration answers -EBUSY. -/
theorem init_module_result_witness :
    (-16 : Int) < 0 ∧
    (init_module unloaded (-16) 0xffff888003c4a000 0xffff888003c4b800).1 = -16 ∧
    (init_module unloaded (-16) 0xffff888003c4a000 0xffff888003c4b800).2.trace =
      [Event.printk Level.KERN_INFO "Loading %s module...\n" [Arg.str "Hello World"],
       Event.register_chrdev 0 "hello",
       Event.printk Level.KERN_ALERT
         "Failed to register character device, %s, for module, %s. Error code is %d\n"
         [Arg.str "hello", Arg.str "Hello World", Arg.num (-16)]] :=
  ⟨by decide,
   ((init_module_result unloaded (-16) 0xffff888003c4a000 0xffff888003c4b800).2.1
      (by decide)).1,
   ((init_module_result unloaded (-16) 0xffff888003c4a000 0xffff888003c4b800).2.1
      (by decide)).2.1⟩

/-- C5: from the unloaded state, a load that returns 0 acquired the character device,
then the class, then the device file; the unload that follows releases the device
file, then the class, then the character device, with the class, device number and
major the load recorded, and leaves none of the three held. -/
theorem load_then_unload (reg : Int) (cls dev : Nat)
    (h : (init_module unloaded reg cls dev).1 = 0) :
    (init_module unloaded reg cls dev).2.trace =
      [Event.printk Level.KERN_INFO "Loading %s module...\n" [Arg.str MODULE_NAME],
       Event.register_chrdev 0 DEVICE_NAME,
       Event.class_create DEVICE_NAME,
       Event.set_dev_uevent cls,
       Event.device_create cls (MKDEV reg 0) DEVICE_NAME] ∧
    (init_module unloaded reg cls dev).2.chrdevs = [(reg, DEVICE_NAME)] ∧
    (init_module unloaded reg cls dev).2.classes = [cls] ∧
    (init_module unloaded reg cls dev).2.devices = [(cls, MKDEV reg 0)] ∧
    (init_module unloaded reg cls dev).2.major = reg ∧
    (init_module unloaded reg cls dev).2.device_class = cls ∧
    (init_module unloaded reg cls dev).2.device_number = MKDEV reg 0 ∧
    (cleanup (init_module unloaded reg cls dev).2).trace =
      (init_module unloaded reg cls dev).2.trace ++
      [Event.printk Level.KERN_INFO "Unloading %s module...\n" [Arg.str MODULE_NAME],
       Event.device_destroy cls (MKDEV reg 0),
       Event.class_destroy cls,
       Event.unregister_chrdev reg DEVICE_NAME] ∧
    (cleanup (init_module unloaded reg cls dev).2).chrdevs = [] ∧
    (cleanup (init_module unloaded reg cls dev).2).classes = [] ∧
    (cleanup (init_module unloaded reg cls dev).2).devices = [] := by
  obtain ⟨h1, h2, h3⟩ := (init_module_zero_iff unloaded reg cls dev).1 h
  rw [(init_module_cases unloaded reg cls dev).2.2.2 h1 h2 h3]
  simp [cleanup, printk, device_destroy, class_destroy, unregister_chrdev, Kernel.emit,
    unloaded]

/-- Witness of C5: major 240 and two valid kernel pointers. -/
theorem load_then_unload_witness :
    (init_module unloaded 240 0xffff888003c4a000 0xffff888003c4b800).1 = 0 ∧
    (cleanup (init_module unloaded 240 0xffff888003c4a000 0xffff888003c4b800).2).chrdevs = [] ∧
    (cleanup (init_module unloaded 240 0xffff888003c4a000 0xffff888003c4b800).2).classes = [] ∧
    (cleanup (init_module unloaded 240 0xffff888003c4a000 0xffff888003c4b800).2).devices = [] :=
  ⟨by decide,
   (load_then_unload 240 0xffff888003c4a000 0xffff888003c4b800 (by decide)).2.2.2.2.2.2.2.2⟩

/-- C9 fails in the code: when device-file creation fails the entry point returns the
error code (-12 here) and the only log line of the run is the load-start line, while
the sibling class-creation failure does log its error code. -/
theorem init_module_device_failure_silent :
    (init_module unloaded 240 0xffff888003c4a000 (2 ^ 64 - 12)).1 = -12 ∧
    log_lines (init_module unloaded 240 0xffff888003c4a000 (2 ^ 64 - 12)).2.trace =
      [Event.printk Level.KERN_INFO "Loading %s module...\n" [Arg.str "Hello World"]] ∧
    (init_module unloaded 240 (2 ^ 64 - 12) 0).1 = -12 ∧
    log_lines (init_module unloaded 240 (2 ^ 64 - 12) 0).2.trace =
      [Event.printk Level.KERN_INFO "Loading %s module...\n" [Arg.str "Hello World"],
       Event.printk Level.KERN_ALERT
         "Failed to create class pointer, %s, for module, %s. Error code is %ld\n"
         [Arg.str "hello", Arg.str "Hello World", Arg.num (-12)]] := by
  decide

end Hello
